import Mathlib

/-!
Verification development for the wise-bid backend (src/main.py).

The Python source is shallowly embedded: Python ints become ℤ, Python
floats become exact rationals ℚ (float arithmetic is idealized as exact
rational arithmetic; all claims under study are tolerance- or
clamp-based, none depends on binary-float rounding error), fallible
code returns Except, and the module-global rate-limit dictionary is
threaded explicitly as state.
-/

namespace WiseBid

/-! ## Python numeric primitives -/

/-- Python int(x) on a float/rational: truncation toward zero. -/
def pyInt (q : ℚ) : ℤ := if 0 ≤ q then ⌊q⌋ else -⌊-q⌋

/-- Round to the nearest integer, ties to even (Python round idealized
over exact rationals). -/
def roundHalfEven (q : ℚ) : ℤ :=
  if (q - ⌊q⌋ : ℚ) < 1 / 2 then ⌊q⌋
  else if (1 / 2 : ℚ) < q - ⌊q⌋ then ⌊q⌋ + 1
  else if ⌊q⌋ % 2 = 0 then ⌊q⌋ else ⌊q⌋ + 1

/-- Python round(x, 1). -/
def pyRound1 (q : ℚ) : ℚ := (roundHalfEven (q * 10) : ℚ) / 10

/-- Substring test on character lists (Python `needle in hay`). -/
def hasSub (hay needle : List Char) : Bool :=
  match hay with
  | [] => needle.isEmpty
  | _ :: t => needle.isPrefixOf hay || hasSub t needle

/-- Python `needle in hay` for strings: substring containment. -/
def strIn (needle hay : String) : Bool := hasSub hay.toList needle.toList

/-- Digit grouping used by Python format spec {:,} (helper on reversed
digit lists: insert a separator every three characters). -/
def group3 : List Char → List Char
  | a :: b :: c :: d :: rest => a :: b :: c :: ',' :: group3 (d :: rest)
  | l => l

/-- Python f-string {n:,} thousands-separated integer formatting. -/
def commaFmt (n : ℤ) : String :=
  (if n < 0 then "-" else "") ++
    String.mk (group3 (toString n.natAbs).toList.reverse).reverse

/-- Python f-string {x:.1f} fixed-point formatting (one decimal digit,
rounding idealized as ties-to-even over exact rationals). -/
def fmtFix1 (q : ℚ) : String :=
  let t := roundHalfEven (q * 10)
  (if t < 0 then "-" else "") ++
    toString (t.natAbs / 10) ++ "." ++ toString (t.natAbs % 10)

/-! ## Fixed reference tables (src/main.py lines 46-83) -/

/-- One entry of COST_RATIOS: 재료비 / 노무비 / 경비 percentages plus a
description string. -/
structure RatioEntry where
  material : ℤ
  labor : ℤ
  equipment : ℤ
  description : String
deriving DecidableEq

/-- 공종별 표준 비율 DB (COST_RATIOS). -/
def COST_RATIOS : List (String × RatioEntry) :=
  [("도로", ⟨55, 25, 20, "도로포장, 아스팔트"⟩),
   ("토목", ⟨40, 35, 25, "토공, 기초"⟩),
   ("건축", ⟨50, 30, 20, "건물 신축/개보수"⟩),
   ("설비", ⟨60, 25, 15, "기계설비, 배관"⟩),
   ("전기", ⟨55, 30, 15, "전기, 통신"⟩),
   ("조경", ⟨45, 35, 20, "조경, 식재"⟩),
   ("상하수도", ⟨50, 30, 20, "상하수도, 관로"⟩),
   ("포장", ⟨55, 25, 20, "포장 전문"⟩),
   ("철근콘크리트", ⟨50, 35, 15, "RC 구조물"⟩),
   ("철골", ⟨60, 25, 15, "철골 구조물"⟩),
   ("기타", ⟨50, 30, 20, "일반 공사"⟩)]

/-- 간접비 비율 (INDIRECT_RATIOS), static reference data. -/
def INDIRECT_RATIOS : List (String × ℚ) :=
  [("간접노무비", 12.0), ("산재보험료", 3.7), ("고용보험료", 1.05),
   ("건강보험료", 3.545), ("연금보험료", 4.5), ("퇴직공제부금", 2.3),
   ("안전관리비", 1.97), ("환경보전비", 0.5), ("일반관리비", 6.0),
   ("이윤", 15.0)]

/-- COST_RATIOS.get(work_type, COST_RATIOS[기타]) (line 258). -/
def resolveRatios (work_type : String) : RatioEntry :=
  (COST_RATIOS.lookup work_type).getD ⟨50, 30, 20, "일반 공사"⟩

/-! ## Cost estimator (calculate_rough_cost, lines 243-342) -/

/-- One of the 표준원가 / 실제원가 dictionaries: 재료비, 노무비, 경비,
직접공사비, 간접비, 합계. -/
structure CostBreakdown where
  material : ℤ
  labor : ℤ
  equipment : ℤ
  direct : ℤ
  indirect : ℤ
  total : ℤ
deriving DecidableEq

/-- The 투찰분석 sub-record. -/
structure BidStrategy where
  min_expected : ℤ
  max_expected : ℤ
  min_bid : ℤ
  recommended_rate : ℚ
  recommended_price : ℤ
deriving DecidableEq

/-- The dictionary returned by calculate_rough_cost. -/
structure CostResult where
  base_price : ℤ
  work_type : String
  description : String
  ratio_material : ℤ
  ratio_labor : ℤ
  ratio_equipment : ℤ
  disc_material : ℚ
  disc_labor : ℚ
  disc_equipment : ℚ
  standard : CostBreakdown
  actual : CostBreakdown
  savings : ℤ
  bubble_rate : ℚ
  strategy : BidStrategy
deriving DecidableEq

/-- estimated_direct_cost = int(base_price * 0.74) (line 265). -/
def estimated_direct_cost (base_price : ℤ) : ℤ :=
  pyInt ((base_price : ℚ) * 0.74)

/-- material_cost = int(estimated_direct_cost * ratios[재료비] / 100)
(line 268). -/
def material_cost (base_price : ℤ) (work_type : String) : ℤ :=
  pyInt ((estimated_direct_cost base_price : ℚ) * ((resolveRatios work_type).material : ℚ) / 100)

/-- labor_cost = int(estimated_direct_cost * ratios[노무비] / 100)
(line 269). -/
def labor_cost (base_price : ℤ) (work_type : String) : ℤ :=
  pyInt ((estimated_direct_cost base_price : ℚ) * ((resolveRatios work_type).labor : ℚ) / 100)

/-- equipment_cost = int(estimated_direct_cost * ratios[경비] / 100)
(line 270). -/
def equipment_cost (base_price : ℤ) (work_type : String) : ℤ :=
  pyInt ((estimated_direct_cost base_price : ℚ) * ((resolveRatios work_type).equipment : ℚ) / 100)

/-- The 표준원가 dictionary (lines 273-280). -/
def standard_cost (base_price : ℤ) (work_type : String) : CostBreakdown :=
  ⟨material_cost base_price work_type, labor_cost base_price work_type,
   equipment_cost base_price work_type, estimated_direct_cost base_price,
   pyInt ((base_price : ℚ) * 0.26), base_price⟩

/-- actual_material = int(material_cost * (1 - material_discount/100))
(line 283). -/
def actual_material (base_price : ℤ) (work_type : String) (material_discount : ℚ) : ℤ :=
  pyInt ((material_cost base_price work_type : ℚ) * (1 - material_discount / 100))

/-- actual_labor (line 284). -/
def actual_labor (base_price : ℤ) (work_type : String) (labor_discount : ℚ) : ℤ :=
  pyInt ((labor_cost base_price work_type : ℚ) * (1 - labor_discount / 100))

/-- actual_equipment (line 285). -/
def actual_equipment (base_price : ℤ) (work_type : String) (equipment_discount : ℚ) : ℤ :=
  pyInt ((equipment_cost base_price work_type : ℚ) * (1 - equipment_discount / 100))

/-- actual_direct = actual_material + actual_labor + actual_equipment
(line 286). -/
def actual_direct (base_price : ℤ) (work_type : String)
    (material_discount labor_discount equipment_discount : ℚ) : ℤ :=
  actual_material base_price work_type material_discount +
    actual_labor base_price work_type labor_discount +
    actual_equipment base_price work_type equipment_discount

/-- direct_reduction_rate = actual_direct / estimated_direct_cost if
estimated_direct_cost > 0 else 1 (line 289). -/
def direct_reduction_rate (base_price : ℤ) (work_type : String)
    (material_discount labor_discount equipment_discount : ℚ) : ℚ :=
  if 0 < estimated_direct_cost base_price then
    (actual_direct base_price work_type material_discount labor_discount equipment_discount : ℚ) /
      (estimated_direct_cost base_price : ℚ)
  else 1

/-- actual_indirect = int(base_price * 0.26 * direct_reduction_rate)
(line 290). -/
def actual_indirect (base_price : ℤ) (work_type : String)
    (material_discount labor_discount equipment_discount : ℚ) : ℤ :=
  pyInt ((base_price : ℚ) * 0.26 *
    direct_reduction_rate base_price work_type material_discount labor_discount equipment_discount)

/-- actual_total = actual_direct + actual_indirect (line 292). -/
def actual_total (base_price : ℤ) (work_type : String)
    (material_discount labor_discount equipment_discount : ℚ) : ℤ :=
  actual_direct base_price work_type material_discount labor_discount equipment_discount +
    actual_indirect base_price work_type material_discount labor_discount equipment_discount

/-- The 실제원가 dictionary (lines 294-301). -/
def actual_cost (base_price : ℤ) (work_type : String)
    (material_discount labor_discount equipment_discount : ℚ) : CostBreakdown :=
  ⟨actual_material base_price work_type material_discount,
   actual_labor base_price work_type labor_discount,
   actual_equipment base_price work_type equipment_discount,
   actual_direct base_price work_type material_discount labor_discount equipment_discount,
   actual_indirect base_price work_type material_discount labor_discount equipment_discount,
   actual_total base_price work_type material_discount labor_discount equipment_discount⟩

/-- bubble_rate = (base_price - actual_total)/base_price*100 if
base_price > 0 else 0 (line 304), before the round(.., 1) applied at
line 335. -/
def bubble_rate_raw (base_price : ℤ) (work_type : String)
    (material_discount labor_discount equipment_discount : ℚ) : ℚ :=
  if 0 < base_price then
    ((base_price : ℚ) -
        (actual_total base_price work_type material_discount labor_discount equipment_discount : ℚ)) /
      (base_price : ℚ) * 100
  else 0

/-- recommended_rate after the two clamps (lines 314-316): first
min(.., 95), then max(.., 75); before the round(.., 1) at line 339. -/
def recommended_rate_raw (base_price : ℤ) (work_type : String)
    (material_discount labor_discount equipment_discount : ℚ) : ℚ :=
  max
    (min
      (if 0 < base_price then
        (actual_total base_price work_type material_discount labor_discount equipment_discount : ℚ) /
          (base_price : ℚ) * 100 + 10
       else 88)
      95)
    75

/-- 개략원가 산출 (calculate_rough_cost, lines 243-342), assembling the
returned dictionary from the locals above; int(...) is pyInt, float
literals are exact rationals. -/
def calculate_rough_cost (base_price : ℤ) (work_type : String)
    (material_discount labor_discount equipment_discount : ℚ) : CostResult :=
  let ratios := resolveRatios work_type
  let std := standard_cost base_price work_type
  let act := actual_cost base_price work_type material_discount labor_discount equipment_discount
  { base_price := base_price
    work_type := work_type
    description := ratios.description
    ratio_material := ratios.material
    ratio_labor := ratios.labor
    ratio_equipment := ratios.equipment
    disc_material := material_discount
    disc_labor := labor_discount
    disc_equipment := equipment_discount
    standard := std
    actual := act
    savings := std.total - act.total
    bubble_rate := pyRound1
      (bubble_rate_raw base_price work_type material_discount labor_discount equipment_discount)
    strategy :=
      ⟨pyInt ((base_price : ℚ) * 0.97), pyInt ((base_price : ℚ) * 1.03),
       pyInt ((act.total : ℚ) * 1.05),
       pyRound1
         (recommended_rate_raw base_price work_type material_discount labor_discount
           equipment_discount),
       pyInt ((base_price : ℚ) *
         recommended_rate_raw base_price work_type material_discount labor_discount
           equipment_discount / 100)⟩ }

/-! ## Decision scorer (analyze_n2b_decision, lines 347-466) -/

/-- strength_keywords (lines 394-398). -/
def strength_keywords : List (String × List String) :=
  [("재료", ["거래처", "직거래", "자재", "재료"]),
   ("인력", ["직영", "숙련", "인력", "노무"]),
   ("장비", ["자가", "장비", "보유"])]

/-- The 분석 sub-dictionary of the decision result. -/
structure DecisionMetrics where
  base_price : ℤ
  estimated_cost : ℤ
  bubble_rate : ℚ
  potential_profit : ℤ
  profit_rate : ℚ
  required_rate : ℚ
deriving DecidableEq

/-- The dictionary returned by analyze_n2b_decision. -/
structure DecisionResult where
  decision : String
  score : ℤ
  recommendation : String
  n2b_not : String
  n2b_but : String
  n2b_because : String
  metrics : DecisionMetrics
  risks : List String
  opportunities : List String
deriving DecidableEq

/-- bubble_rate of analyze_n2b_decision (line 360). -/
def n2b_bubble_rate (base_price estimated_cost : ℤ) : ℚ :=
  if 0 < base_price then
    ((base_price : ℚ) - (estimated_cost : ℚ)) / (base_price : ℚ) * 100
  else 0

/-- profit_rate of analyze_n2b_decision (line 362). -/
def n2b_profit_rate (base_price estimated_cost : ℤ) : ℚ :=
  if 0 < estimated_cost then
    ((base_price - estimated_cost : ℤ) : ℚ) / (estimated_cost : ℚ) * 100
  else 0

/-- The participation score of analyze_n2b_decision (lines 364-410):
base 50, banded bubble-rate and profit-rate bonuses, +5 per matching
strength keyword group, -5 per matching weakness, clamped to [0, 100].
The two keyword loops become foldl over the phrase lists. -/
def n2b_score (base_price estimated_cost : ℤ) (min_profit_rate : ℚ)
    (company_strength company_weakness : List String) : ℤ :=
  let bubble_rate := n2b_bubble_rate base_price estimated_cost
  let profit_rate := n2b_profit_rate base_price estimated_cost
  let score : ℤ := 50
  let score := score +
    (if 25 ≤ bubble_rate then 30 else if 20 ≤ bubble_rate then 25
     else if 15 ≤ bubble_rate then 20 else if 10 ≤ bubble_rate then 15
     else if 5 ≤ bubble_rate then 10 else 0)
  let score := score +
    (if min_profit_rate + 10 ≤ profit_rate then 20
     else if min_profit_rate + 5 ≤ profit_rate then 15
     else if min_profit_rate ≤ profit_rate then 10
     else if min_profit_rate - 5 ≤ profit_rate then 5 else -10)
  let score := company_strength.foldl (fun sc st =>
    strength_keywords.foldl (fun sc2 ck =>
      if ck.2.any (fun kw => strIn kw st) then sc2 + 5 else sc2) sc) score
  let score := company_weakness.foldl (fun sc w =>
    if ["미경험", "부족", "없음", "처음"].any (fun kw => strIn kw w) then sc - 5 else sc)
    score
  max 0 (min 100 score)

/-- N2B 참여 판정 (analyze_n2b_decision, lines 347-466). -/
def analyze_n2b_decision (base_price estimated_cost : ℤ) (work_type : String)
    (min_profit_rate : ℚ) (company_strength company_weakness : List String) :
    DecisionResult :=
  let _ := work_type
  let bubble_rate := n2b_bubble_rate base_price estimated_cost
  let potential_profit := base_price - estimated_cost
  let profit_rate := n2b_profit_rate base_price estimated_cost
  let score := n2b_score base_price estimated_cost min_profit_rate
    company_strength company_weakness
  let dec : String × String :=
    if 75 ≤ score then ("적극 참여", "수익성 높음, 적극 참여 권장")
    else if 60 ≤ score then ("참여 권장", "적정 수익 예상, 참여 고려")
    else if 45 ≤ score then ("조건부 참여", "원가 재검토 후 참여 결정")
    else if 30 ≤ score then ("신중 검토", "리스크 높음, 신중한 검토 필요")
    else ("불참 권장", "수익성 낮음, 불참 권장")
  let risks :=
    (if bubble_rate < 10 then ["거품률 낮음 - 경쟁 심화 시 손실 가능"] else []) ++
    (if profit_rate < 5 then ["수익률 낮음 - 원가 상승 시 손실 가능"] else []) ++
    (if company_strength.isEmpty then ["회사 강점 미확인 - 경쟁력 검토 필요"] else [])
  let opportunities :=
    (if 20 ≤ bubble_rate then ["높은 거품률 - 가격 경쟁력 확보 가능"] else []) ++
    (if company_strength.isEmpty then []
     else ["회사 강점 활용 - " ++ String.intercalate ", " (company_strength.take 2)])
  { decision := dec.1
    score := score
    recommendation := dec.2
    n2b_not := "단순히 기초금액 " ++ commaFmt base_price ++ "원이 커서 참여하는 것이 아니다"
    n2b_but := "실제원가 " ++ commaFmt estimated_cost ++ "원 대비 거품률 " ++
      fmtFix1 bubble_rate ++ "%가 판단 기준이다"
    n2b_because := "거품률이 " ++ (if 15 ≤ bubble_rate then "충분하여" else "부족하여") ++
      " 예상수익률 " ++ fmtFix1 profit_rate ++ "%" ++
      (if min_profit_rate ≤ profit_rate then "로 참여 가치가 있다" else "로 리스크가 있다")
    metrics :=
      ⟨base_price, estimated_cost, pyRound1 bubble_rate, potential_profit,
       pyRound1 profit_rate, min_profit_rate⟩
    risks := risks
    opportunities := opportunities }

/-! ## Company profiles and sample set (lines 786-831) -/

/-- CompanyProfile (pydantic model, lines 786-795). -/
structure CompanyProfile where
  company_name : String
  business_type : String
  work_types : List String
  regions : List String
  min_price : ℤ
  max_price : ℤ
  licenses : List String
  experiences : List String
deriving DecidableEq

/-- SAMPLE_PROFILES (lines 800-831). -/
def SAMPLE_PROFILES : List (String × CompanyProfile) :=
  [("도로포장전문",
    ⟨"(주)한길도로", "전문건설", ["도로", "포장", "아스팔트", "아스콘"],
     ["서울", "경기", "인천"], 50000000, 2000000000,
     ["도로포장공사업", "비계구조물해체공사업"],
     ["도로포장 50건", "아스팔트포장 30건", "보도블럭 20건"]⟩),
   ("종합건설중견",
    ⟨"대한종합건설(주)", "종합건설", ["건축", "토목", "도로", "상하수도"],
     ["서울", "경기", "인천", "충남", "충북"], 500000000, 50000000000,
     ["토목건축공사업", "토목공사업", "건축공사업"],
     ["공공건축 30건", "도로공사 25건", "하수관로 15건"]⟩),
   ("전기설비전문",
    ⟨"(주)밝은전기", "전문건설", ["전기", "통신", "소방", "설비"],
     ["서울", "경기"], 30000000, 1000000000,
     ["전기공사업", "정보통신공사업", "소방시설공사업"],
     ["전기설비 100건", "통신공사 50건", "소방설비 30건"]⟩)]

/-- An HTTPException raised by an endpoint. -/
structure HTTPError where
  status_code : ℕ
  detail : String
deriving DecidableEq

/-- Response of GET /api/sample-profiles/{profile_name}. -/
structure SampleProfileResponse where
  success : Bool
  name : String
  profile : CompanyProfile
deriving DecidableEq

/-- get_sample_profile (lines 858-878): 404 on an unknown name,
otherwise the profile echoed back. -/
def get_sample_profile (profile_name : String) :
    Except HTTPError SampleProfileResponse :=
  match SAMPLE_PROFILES.lookup profile_name with
  | none => .error ⟨404, "프로필 \u0027" ++ profile_name ++ "\u0027 없음"⟩
  | some profile => .ok ⟨true, profile_name, profile⟩

/-- The profile-name guard of quick_match (lines 886-889): 404 on an
unknown name, otherwise the resolved profile. -/
def quick_match_profile (profile_name : String) :
    Except HTTPError CompanyProfile :=
  match SAMPLE_PROFILES.lookup profile_name with
  | none => .error ⟨404, "프로필 \u0027" ++ profile_name ++ "\u0027 없음"⟩
  | some profile => .ok profile

/-! ## Bid announcements and matching (lines 675-724, 899-950, 1021-1059) -/

/-- An announcement record as built by fetch_bid_announcements
(lines 708-722). The two price fields arrive as JSON numbers and are
coerced with int() inside the matcher; they are embedded as ℤ, with
Python truthiness of a price being ≠ 0. -/
structure Bid where
  bid_no : String
  bid_name : String
  agency : String
  demand_agency : String
  estimated_price : ℤ
  base_price : ℤ
  bid_method : String
  contract_method : String
  deadline : String
  open_date : String
  region : String
  url : String
  bid_type : String
deriving DecidableEq

/-- An announcement with match_score / match_reasons attached. -/
structure MatchedBid where
  bid : Bid
  match_score : ℤ
  match_reasons : List String
deriving DecidableEq

/-- price = bid.get(base_price, 0) or bid.get(estimated_price, 0)
(lines 904 and 1026): first truthy of the two price fields. -/
def effPrice (b : Bid) : ℤ :=
  if b.base_price ≠ 0 then b.base_price else b.estimated_price

/-- region = bid.get(region, empty) or bid.get(agency, empty)
(lines 922 and 1044). -/
def regionField (b : Bid) : String :=
  if b.region ≠ "" then b.region else b.agency

/-- First profile work-type keyword occurring in the announcement name
(the for/break loop at lines 915-919 and 1037-1041). -/
def wtFound (p : CompanyProfile) (b : Bid) : Option String :=
  p.work_types.find? (fun work_type => strIn work_type b.bid_name)

/-- First profile region keyword occurring in the region-or-agency
field (the for/break loop at lines 923-927 and 1045-1049). -/
def regionFound (p : CompanyProfile) (b : Bid) : Option String :=
  p.regions.find? (fun r => strIn r (regionField b))

/-- Per-announcement scoring of match_bids (lines 1022-1053): none
models the `continue` that drops a priced announcement outside the
profile price range; otherwise the accumulated (score, reasons). -/
def scoreBid (p : CompanyProfile) (b : Bid) : Option (ℤ × List String) :=
  let price := effPrice b
  let start : Option (ℤ × List String) :=
    if price ≠ 0 then
      if p.min_price ≤ price ∧ price ≤ p.max_price then
        some (30, ["금액 적합"])
      else none
    else some (0, [])
  match start with
  | none => none
  | some s0 =>
    let s1 : ℤ × List String :=
      match wtFound p b with
      | some work_type => (s0.1 + 25, s0.2 ++ ["공종 매칭: " ++ work_type])
      | none => s0
    let s2 : ℤ × List String :=
      match regionFound p b with
      | some r => (s1.1 + 20, s1.2 ++ ["지역 매칭: " ++ r])
      | none => s1
    some s2

/-- The `matched` list of match_bids before sorting (lines 1020-1056):
announcements surviving the price filter with score ≥ 25, in fetch
order. -/
def collectMatches (p : CompanyProfile) (bids : List Bid) : List MatchedBid :=
  bids.filterMap (fun b =>
    match scoreBid p b with
    | none => none
    | some s => if 25 ≤ s.1 then some ⟨b, s.1, s.2⟩ else none)

/-- match_bids matched output: matched.sort(key=match_score,
reverse=True) (lines 1058-1059). Python list.sort is stable; a stable
descending sort is mergeSort with the ≥-on-score comparator. -/
def matchBids (p : CompanyProfile) (bids : List Bid) : List MatchedBid :=
  (collectMatches p bids).mergeSort
    (fun x y => decide (y.match_score ≤ x.match_score))

/-- Per-announcement scoring of quick_match (lines 900-930): identical
logic to scoreBid, with the reason strings of that loop. -/
def quickScoreBid (p : CompanyProfile) (b : Bid) : Option (ℤ × List String) :=
  let price := effPrice b
  let start : Option (ℤ × List String) :=
    if price ≠ 0 then
      if p.min_price ≤ price ∧ price ≤ p.max_price then
        some (30, ["금액 적합 (" ++ commaFmt price ++ "원)"])
      else none
    else some (0, [])
  match start with
  | none => none
  | some s0 =>
    let s1 : ℤ × List String :=
      match wtFound p b with
      | some work_type => (s0.1 + 25, s0.2 ++ ["공종: " ++ work_type])
      | none => s0
    let s2 : ℤ × List String :=
      match regionFound p b with
      | some r => (s1.1 + 20, s1.2 ++ ["지역: " ++ r])
      | none => s1
    some s2

/-- The `matched` list of quick_match before sorting (lines 898-933). -/
def collectQuick (p : CompanyProfile) (bids : List Bid) : List MatchedBid :=
  bids.filterMap (fun b =>
    match quickScoreBid p b with
    | none => none
    | some s => if 25 ≤ s.1 then some ⟨b, s.1, s.2⟩ else none)

/-- quick_match sorted matched list (line 935). -/
def quickSorted (p : CompanyProfile) (bids : List Bid) : List MatchedBid :=
  (collectQuick p bids).mergeSort
    (fun x y => decide (y.match_score ≤ x.match_score))

/-- The matched list in the quick_match response: matched[:20]
(line 944). -/
def quickMatchedTop (p : CompanyProfile) (bids : List Bid) : List MatchedBid :=
  (quickSorted p bids).take 20

/-! ## Daily rate limiting (lines 77-114) -/

/-- LIMITS (lines 77-83). -/
def LIMITS : List (String × List (String × ℤ)) :=
  [("biz", [("normal", 10), ("premium", 200)]),
   ("proposal", [("normal", 10), ("premium", 200)]),
   ("agency", [("normal", 100)]),
   ("bid", [("normal", 10), ("premium", 200)]),
   ("cost", [("normal", 20), ("premium", 200)])]

/-- The limit computation of check_rate_limit (lines 104-107):
LIMITS[app_type].get(premium-or-normal, 10) when the app type is known,
10 otherwise. -/
def limitFor (app_type : String) (is_premium : Bool) : ℤ :=
  match LIMITS.lookup app_type with
  | some tbl => (tbl.lookup (if is_premium then "premium" else "normal")).getD 10
  | none => 10

/-- A per-ip usage dictionary; the source always reads it with
usage.get(app_type, 0), so it is embedded as a total function with the
zero default built in (the initializer sets all five counters to 0). -/
abbrev UsageMap := String → ℤ

/-- daily_usage[today]: ip → usage dictionary. -/
abbrev DayMap := String → Option UsageMap

/-- The module-global daily_usage dictionary: date string → day table. -/
abbrev DailyUsage := String → Option DayMap

/-- The record returned by check_rate_limit on success. -/
structure RateInfo where
  used : ℤ
  limit : ℤ
  remaining : ℤ
deriving DecidableEq

/-- check_rate_limit (lines 93-114) with the global dictionary threaded
as explicit state and the current date passed in; returns the result
(or the 429 HTTPException) together with the dictionary after the call. -/
def check_rate_limit (today ip app_type : String) (is_premium : Bool)
    (daily_usage : DailyUsage) : Except HTTPError RateInfo × DailyUsage :=
  let du : DailyUsage :=
    if (daily_usage today).isSome then daily_usage
    else fun d => if d = today then some (fun _ => none) else none
  let day : DayMap := (du today).getD (fun _ => none)
  let day : DayMap :=
    if (day ip).isSome then day
    else fun i => if i = ip then some (fun _ => 0) else day i
  let usage : UsageMap := (day ip).getD (fun _ => 0)
  let current := usage app_type
  let limit := limitFor app_type is_premium
  let remaining := limit - current
  if remaining ≤ 0 then
    (.error ⟨429, "일일 사용 한도(" ++ toString limit ++ "회) 초과"⟩,
     fun d => if d = today then some day else du d)
  else
    let usage1 : UsageMap := fun a => if a = app_type then current + 1 else usage a
    (.ok ⟨current + 1, limit, remaining - 1⟩,
     fun d => if d = today then some (fun i => if i = ip then some usage1 else day i)
              else du d)

/-- The counter stored for (day, ip, app) in the daily_usage
dictionary, with the 0 default the source uses on reads. -/
def counterOf (du : DailyUsage) (day ip app : String) : ℤ :=
  match du day with
  | none => 0
  | some t =>
    match t ip with
    | none => 0
    | some u => u app

/-- Whether an Except value is the error case. -/
def isErr {ε α : Type} : Except ε α → Bool
  | .error _ => true
  | .ok _ => false

/-! ## Concrete fixtures used by witness instantiations -/

/-- A small company profile: work type 도로, region 서울, price range
[100, 200]. -/
def wProfile : CompanyProfile :=
  ⟨"한길도로", "전문건설", ["도로"], ["서울"], 100, 200, [], []⟩

/-- An announcement priced at 300 - outside the fixture price range -
that matches the fixture work type and region. -/
def wBidHi : Bid :=
  ⟨"1", "도로확장공사", "서울시", "", 0, 300, "", "", "", "", "서울", "", "공사"⟩

/-- An announcement with both price fields falsy that matches the
fixture work type and region. -/
def wBidFree : Bid :=
  ⟨"2", "도로포장공사", "서울시", "", 0, 0, "", "", "", "", "서울", "", "공사"⟩

/-- A falsy-priced announcement matching only the work type. -/
def wBidA : Bid :=
  ⟨"3", "도로보수공사", "대전시", "", 0, 0, "", "", "", "", "대전", "", "공사"⟩

/-- A second falsy-priced announcement matching only the work type. -/
def wBidB : Bid :=
  ⟨"4", "도로개량공사", "대전시", "", 0, 0, "", "", "", "", "대전", "", "공사"⟩

/-! ## Supporting lemmas and claim theorems -/

lemma pyInt_of_nonneg {q : ℚ} (h : 0 ≤ q) : pyInt q = ⌊q⌋ := by
  simp [pyInt, h]

lemma pyInt_nonneg {q : ℚ} (h : 0 ≤ q) : 0 ≤ pyInt q := by
  rw [pyInt_of_nonneg h]; exact Int.floor_nonneg.mpr h

lemma pyInt_le {q : ℚ} (h : 0 ≤ q) : (pyInt q : ℚ) ≤ q := by
  rw [pyInt_of_nonneg h]; exact Int.floor_le q

lemma pyInt_zero : pyInt 0 = 0 := by simp [pyInt]

lemma floor_pair_split (x y : ℚ) (n : ℤ) (h : x + y = (n : ℚ)) :
    n - 1 ≤ ⌊x⌋ + ⌊y⌋ ∧ ⌊x⌋ + ⌊y⌋ ≤ n := by
  have hx := Int.floor_le x
  have hy := Int.floor_le y
  have hx1 := Int.lt_floor_add_one x
  have hy1 := Int.lt_floor_add_one y
  constructor
  · have : ((n - 1 : ℤ) : ℚ) < ((⌊x⌋ + ⌊y⌋ : ℤ) : ℚ) + 1 := by push_cast; linarith
    have := Int.lt_add_one_iff.mp (by exact_mod_cast this)
    omega
  · have : ((⌊x⌋ + ⌊y⌋ : ℤ) : ℚ) ≤ (n : ℚ) := by push_cast; linarith
    exact_mod_cast this

lemma floor_triple_split (x y z : ℚ) (n : ℤ) (h : x + y + z = (n : ℚ)) :
    n - 2 ≤ ⌊x⌋ + ⌊y⌋ + ⌊z⌋ ∧ ⌊x⌋ + ⌊y⌋ + ⌊z⌋ ≤ n := by
  have hx := Int.floor_le x
  have hy := Int.floor_le y
  have hz := Int.floor_le z
  have hx1 := Int.lt_floor_add_one x
  have hy1 := Int.lt_floor_add_one y
  have hz1 := Int.lt_floor_add_one z
  constructor
  · have : ((n - 2 : ℤ) : ℚ) < ((⌊x⌋ + ⌊y⌋ + ⌊z⌋ : ℤ) : ℚ) + 1 := by push_cast; linarith
    have := Int.lt_add_one_iff.mp (by exact_mod_cast this)
    omega
  · have : ((⌊x⌋ + ⌊y⌋ + ⌊z⌋ : ℤ) : ℚ) ≤ (n : ℚ) := by push_cast; linarith
    exact_mod_cast this

lemma resolveRatios_spec (work_type : String) :
    0 ≤ (resolveRatios work_type).material ∧ 0 ≤ (resolveRatios work_type).labor ∧
    0 ≤ (resolveRatios work_type).equipment ∧
    (resolveRatios work_type).material + (resolveRatios work_type).labor +
      (resolveRatios work_type).equipment = 100 := by
  unfold resolveRatios
  cases h : COST_RATIOS.lookup work_type with
  | none => norm_num
  | some e =>
    rw [List.lookup_eq_some_iff] at h
    obtain ⟨l₁, l₂, hl, -⟩ := h
    have he : (work_type, e) ∈ COST_RATIOS := by rw [hl]; simp
    have hall : ∀ p ∈ COST_RATIOS,
        0 ≤ p.2.material ∧ 0 ≤ p.2.labor ∧ 0 ≤ p.2.equipment ∧
        p.2.material + p.2.labor + p.2.equipment = 100 := by decide
    simpa using hall _ he


lemma cast_pos_of_int {n : ℤ} (h : 0 < n) : (0:ℚ) < (n:ℚ) := by exact_mod_cast h

/-- C1 (amended): for base_price > 0 and a work-type key in the ratio
table, the three standard parts sum to standard_direct_total within -2
from truncation (one truncation per part, not exact equality), and
standard_direct_total + standard_indirect equals base_price within -1. -/
theorem claim1_amended (base_price : ℤ) (work_type : String)
    (d1 d2 d3 : ℚ) (hbp : 0 < base_price)
    (_hwt : (COST_RATIOS.lookup work_type).isSome) :
    ((calculate_rough_cost base_price work_type d1 d2 d3).standard.direct - 2 ≤
        (calculate_rough_cost base_price work_type d1 d2 d3).standard.material +
          (calculate_rough_cost base_price work_type d1 d2 d3).standard.labor +
          (calculate_rough_cost base_price work_type d1 d2 d3).standard.equipment ∧
      (calculate_rough_cost base_price work_type d1 d2 d3).standard.material +
          (calculate_rough_cost base_price work_type d1 d2 d3).standard.labor +
          (calculate_rough_cost base_price work_type d1 d2 d3).standard.equipment ≤
        (calculate_rough_cost base_price work_type d1 d2 d3).standard.direct) ∧
    (base_price - 1 ≤
        (calculate_rough_cost base_price work_type d1 d2 d3).standard.direct +
          (calculate_rough_cost base_price work_type d1 d2 d3).standard.indirect ∧
      (calculate_rough_cost base_price work_type d1 d2 d3).standard.direct +
          (calculate_rough_cost base_price work_type d1 d2 d3).standard.indirect ≤
        base_price) := by
  have hstd : (calculate_rough_cost base_price work_type d1 d2 d3).standard =
      standard_cost base_price work_type := rfl
  rw [hstd]
  simp only [standard_cost]
  obtain ⟨hm0, hl0, he0, hsum⟩ := resolveRatios_spec work_type
  have hbpq : (0:ℚ) < (base_price : ℚ) := cast_pos_of_int hbp
  have h74 : (0:ℚ) ≤ (base_price : ℚ) * 0.74 := by nlinarith
  have h26 : (0:ℚ) ≤ (base_price : ℚ) * 0.26 := by nlinarith
  have hedc : estimated_direct_cost base_price = ⌊(base_price : ℚ) * 0.74⌋ := by
    unfold estimated_direct_cost; exact pyInt_of_nonneg h74
  have hedc0 : (0:ℚ) ≤ (estimated_direct_cost base_price : ℚ) := by
    rw [hedc]; exact_mod_cast Int.floor_nonneg.mpr h74
  constructor
  · -- three-way split of estimated_direct_cost
    have hmq : (0:ℚ) ≤ ((resolveRatios work_type).material : ℚ) := by exact_mod_cast hm0
    have hlq : (0:ℚ) ≤ ((resolveRatios work_type).labor : ℚ) := by exact_mod_cast hl0
    have heq : (0:ℚ) ≤ ((resolveRatios work_type).equipment : ℚ) := by exact_mod_cast he0
    have hsq : ((resolveRatios work_type).material : ℚ) +
        ((resolveRatios work_type).labor : ℚ) +
        ((resolveRatios work_type).equipment : ℚ) = 100 := by exact_mod_cast hsum
    have hx : (0:ℚ) ≤ (estimated_direct_cost base_price : ℚ) *
        ((resolveRatios work_type).material : ℚ) / 100 := by positivity
    have hy : (0:ℚ) ≤ (estimated_direct_cost base_price : ℚ) *
        ((resolveRatios work_type).labor : ℚ) / 100 := by positivity
    have hz : (0:ℚ) ≤ (estimated_direct_cost base_price : ℚ) *
        ((resolveRatios work_type).equipment : ℚ) / 100 := by positivity
    have htot : (estimated_direct_cost base_price : ℚ) *
          ((resolveRatios work_type).material : ℚ) / 100 +
        (estimated_direct_cost base_price : ℚ) *
          ((resolveRatios work_type).labor : ℚ) / 100 +
        (estimated_direct_cost base_price : ℚ) *
          ((resolveRatios work_type).equipment : ℚ) / 100 =
        ((estimated_direct_cost base_price : ℤ) : ℚ) := by
      linear_combination (estimated_direct_cost base_price : ℚ) / 100 * hsq
    have := floor_triple_split _ _ _ _ htot
    unfold material_cost labor_cost equipment_cost
    rw [pyInt_of_nonneg hx, pyInt_of_nonneg hy, pyInt_of_nonneg hz]
    omega
  · have htot : (base_price : ℚ) * 0.74 + (base_price : ℚ) * 0.26 =
        (base_price : ℚ) := by ring
    have := floor_pair_split _ _ base_price htot
    unfold estimated_direct_cost
    rw [pyInt_of_nonneg h74, pyInt_of_nonneg h26]
    omega

/-- C1 counterexample: at base_price = 100 and work type 도로 the
standard parts sum to 72 while standard_direct_total is 74, refuting
the exact equality the claim states. -/
theorem claim1_cx :
    ¬((calculate_rough_cost 100 "도로" 0 0 0).standard.material +
        (calculate_rough_cost 100 "도로" 0 0 0).standard.labor +
        (calculate_rough_cost 100 "도로" 0 0 0).standard.equipment =
      (calculate_rough_cost 100 "도로" 0 0 0).standard.direct) := by
  norm_num [calculate_rough_cost, standard_cost, material_cost, labor_cost,
    equipment_cost, estimated_direct_cost, resolveRatios, COST_RATIOS, pyInt,
    List.lookup]

/-- C1 witness: claim1_amended applied at base_price 100, work 도로. -/
theorem claim1_witness :
    (0:ℤ) < 100 ∧ ((COST_RATIOS.lookup "도로").isSome = true) ∧
    ((calculate_rough_cost 100 "도로" 0 0 0).standard.direct +
        (calculate_rough_cost 100 "도로" 0 0 0).standard.indirect ≤ 100) :=
  ⟨by norm_num, by decide, ((claim1_amended 100 "도로" 0 0 0 (by norm_num) (by decide)).2).2⟩

/-- C4: for every input to analyze_n2b_decision, the returned score
lies in [0, 100]. -/
theorem claim4_score_clamped (base_price estimated_cost : ℤ) (work_type : String)
    (min_profit_rate : ℚ) (company_strength company_weakness : List String) :
    0 ≤ (analyze_n2b_decision base_price estimated_cost work_type min_profit_rate
          company_strength company_weakness).score ∧
    (analyze_n2b_decision base_price estimated_cost work_type min_profit_rate
          company_strength company_weakness).score ≤ 100 := by
  have h : (analyze_n2b_decision base_price estimated_cost work_type min_profit_rate
      company_strength company_weakness).score =
      n2b_score base_price estimated_cost min_profit_rate company_strength
        company_weakness := rfl
  rw [h]
  simp only [n2b_score]
  exact ⟨le_max_left 0 _, max_le (by norm_num) (min_le_left 100 _)⟩


lemma discount100_zero (c : ℤ) : pyInt ((c : ℚ) * (1 - 100 / 100)) = 0 := by
  norm_num [pyInt]

/-- C2: for every base_price > 0 and every work_type, discounts of 100
on all three categories give actual_direct = actual_indirect =
actual_total = 0 and a reported bubble rate of exactly 100.0. -/
theorem claim2_full_discount (base_price : ℤ) (work_type : String)
    (hbp : 0 < base_price) :
    (calculate_rough_cost base_price work_type 100 100 100).actual.direct = 0 ∧
    (calculate_rough_cost base_price work_type 100 100 100).actual.indirect = 0 ∧
    (calculate_rough_cost base_price work_type 100 100 100).actual.total = 0 ∧
    (calculate_rough_cost base_price work_type 100 100 100).bubble_rate = 100 := by
  have hbpq : (0:ℚ) < (base_price : ℚ) := by exact_mod_cast hbp
  have hact : (calculate_rough_cost base_price work_type 100 100 100).actual =
      actual_cost base_price work_type 100 100 100 := rfl
  have hm : actual_material base_price work_type 100 = 0 := discount100_zero _
  have hl : actual_labor base_price work_type 100 = 0 := discount100_zero _
  have he : actual_equipment base_price work_type 100 = 0 := discount100_zero _
  have hdir : actual_direct base_price work_type 100 100 100 = 0 := by
    unfold actual_direct; rw [hm, hl, he]; ring
  have hind : actual_indirect base_price work_type 100 100 100 = 0 := by
    unfold actual_indirect direct_reduction_rate
    rw [hdir]
    by_cases hedc : 0 < estimated_direct_cost base_price
    · simp only [hedc, if_true]
      norm_num [pyInt_zero]
    · simp only [hedc, if_false]
      have h74 : (0:ℚ) ≤ (base_price : ℚ) * 0.74 := by nlinarith
      have hedc0 : estimated_direct_cost base_price = 0 := by
        have h0 : 0 ≤ estimated_direct_cost base_price := by
          unfold estimated_direct_cost; exact pyInt_nonneg h74
        omega
      have hlt : (base_price : ℚ) * 0.74 < 1 := by
        unfold estimated_direct_cost at hedc0
        rw [pyInt_of_nonneg h74] at hedc0
        have hfl := Int.lt_floor_add_one ((base_price : ℚ) * 0.74)
        rw [hedc0] at hfl
        push_cast at hfl
        linarith
      have h260 : (0:ℚ) ≤ (base_price : ℚ) * 0.26 := by nlinarith
      have h261 : (base_price : ℚ) * 0.26 < 1 := by nlinarith
      rw [mul_one, pyInt_of_nonneg h260]
      exact Int.floor_eq_zero_iff.mpr ⟨h260, h261⟩
  have htot : actual_total base_price work_type 100 100 100 = 0 := by
    unfold actual_total; rw [hdir, hind]; ring
  refine ⟨by rw [hact]; exact hdir, by rw [hact]; exact hind, by rw [hact]; exact htot, ?_⟩
  have hbub : (calculate_rough_cost base_price work_type 100 100 100).bubble_rate =
      pyRound1 (bubble_rate_raw base_price work_type 100 100 100) := rfl
  rw [hbub]
  have hraw : bubble_rate_raw base_price work_type 100 100 100 = 100 := by
    unfold bubble_rate_raw
    rw [htot]
    simp only [hbp, if_true]
    push_cast
    field_simp
  rw [hraw]
  norm_num [pyRound1, roundHalfEven]

/-- C2 witness: claim2_full_discount applied at base_price 777. -/
theorem claim2_witness :
    (0:ℤ) < 777 ∧
    (calculate_rough_cost 777 "토목" 100 100 100).actual.total = 0 ∧
    (calculate_rough_cost 777 "토목" 100 100 100).bubble_rate = 100 :=
  ⟨by norm_num, (claim2_full_discount 777 "토목" (by norm_num)).2.2.1,
   (claim2_full_discount 777 "토목" (by norm_num)).2.2.2⟩


lemma le_roundHalfEven {x : ℚ} {a : ℤ} (h : (a:ℚ) ≤ x) : a ≤ roundHalfEven x := by
  unfold roundHalfEven
  have hfl : a ≤ ⌊x⌋ := Int.le_floor.mpr h
  split_ifs <;> omega

lemma roundHalfEven_le {x : ℚ} {b : ℤ} (h : x ≤ (b:ℚ)) : roundHalfEven x ≤ b := by
  unfold roundHalfEven
  have hfb : ⌊x⌋ ≤ b := by
    have := Int.floor_mono h
    simpa using this
  have hxf := Int.floor_le x
  split_ifs with h1 h2 h3
  · exact hfb
  · by_contra hc
    push_neg at hc
    have hb' : ⌊x⌋ = b := by omega
    have : x - (⌊x⌋:ℚ) ≤ 0 := by rw [hb']; linarith
    linarith
  · exact hfb
  · by_contra hc
    push_neg at hc
    have hb' : ⌊x⌋ = b := by omega
    have hhalf : (1/2 : ℚ) ≤ x - ⌊x⌋ := by linarith
    have : x - (⌊x⌋:ℚ) ≤ 0 := by rw [hb']; linarith
    linarith

lemma le_pyRound1 {q : ℚ} {a : ℤ} (h : (a:ℚ) ≤ q) : (a:ℚ) ≤ pyRound1 q := by
  unfold pyRound1
  have h10 : ((10 * a : ℤ) : ℚ) ≤ q * 10 := by push_cast; linarith
  have hr := le_roundHalfEven h10
  have hr' : ((10 * a : ℤ) : ℚ) ≤ ((roundHalfEven (q * 10) : ℤ) : ℚ) := by exact_mod_cast hr
  push_cast at hr'
  linarith

lemma pyRound1_le {q : ℚ} {b : ℤ} (h : q ≤ (b:ℚ)) : pyRound1 q ≤ (b:ℚ) := by
  unfold pyRound1
  have h10 : q * 10 ≤ ((10 * b : ℤ) : ℚ) := by push_cast; linarith
  have hr := roundHalfEven_le h10
  have hr' : ((roundHalfEven (q * 10) : ℤ) : ℚ) ≤ ((10 * b : ℤ) : ℚ) := by exact_mod_cast hr
  push_cast at hr'
  linarith

/-- C3 (amended): for every input, the recommended rate in the output
is clamped into [75, 95], and the recommended price is the truncation
toward zero of base_price * recommended_rate / 100 - which equals the
floor whenever base_price is nonnegative (Python int() truncates toward
zero, so the floor form fails for negative base prices). -/
theorem claim3_amended (base_price : ℤ) (work_type : String) (d1 d2 d3 : ℚ) :
    (75 ≤ (calculate_rough_cost base_price work_type d1 d2 d3).strategy.recommended_rate ∧
      (calculate_rough_cost base_price work_type d1 d2 d3).strategy.recommended_rate ≤ 95) ∧
    (calculate_rough_cost base_price work_type d1 d2 d3).strategy.recommended_price =
      pyInt ((base_price : ℚ) *
        recommended_rate_raw base_price work_type d1 d2 d3 / 100) ∧
    (0 ≤ base_price →
      (calculate_rough_cost base_price work_type d1 d2 d3).strategy.recommended_price =
        ⌊(base_price : ℚ) * recommended_rate_raw base_price work_type d1 d2 d3 / 100⌋) := by
  have hrate : (calculate_rough_cost base_price work_type d1 d2 d3).strategy.recommended_rate =
      pyRound1 (recommended_rate_raw base_price work_type d1 d2 d3) := rfl
  have hprice : (calculate_rough_cost base_price work_type d1 d2 d3).strategy.recommended_price =
      pyInt ((base_price : ℚ) * recommended_rate_raw base_price work_type d1 d2 d3 / 100) := rfl
  have hlo : (75:ℚ) ≤ recommended_rate_raw base_price work_type d1 d2 d3 := by
    unfold recommended_rate_raw
    exact le_max_right _ _
  have hhi : recommended_rate_raw base_price work_type d1 d2 d3 ≤ 95 := by
    unfold recommended_rate_raw
    exact max_le (min_le_right _ _) (by norm_num)
  refine ⟨⟨?_, ?_⟩, hprice, ?_⟩
  · rw [hrate]
    have := le_pyRound1 (a := 75) (by exact_mod_cast hlo)
    exact_mod_cast this
  · rw [hrate]
    have := pyRound1_le (b := 95) (by exact_mod_cast hhi)
    exact_mod_cast this
  · intro hbp
    rw [hprice]
    apply pyInt_of_nonneg
    have hbq : (0:ℚ) ≤ (base_price : ℚ) := by exact_mod_cast hbp
    have : (0:ℚ) ≤ (base_price : ℚ) * recommended_rate_raw base_price work_type d1 d2 d3 := by
      nlinarith
    linarith [div_nonneg this (by norm_num : (0:ℚ) ≤ 100)]

/-- C3 counterexample: at base_price = -3 the recommended price is
int(-2.64) = -2, but floor(-3 * 88 / 100) = -3, refuting the floor
formula of the claim for arbitrary inputs. -/
theorem claim3_cx :
    ¬((75 ≤ (calculate_rough_cost (-3) "기타" 0 0 0).strategy.recommended_rate ∧
        (calculate_rough_cost (-3) "기타" 0 0 0).strategy.recommended_rate ≤ 95) ∧
      (calculate_rough_cost (-3) "기타" 0 0 0).strategy.recommended_price =
        ⌊((-3 : ℤ) : ℚ) *
            (calculate_rough_cost (-3) "기타" 0 0 0).strategy.recommended_rate / 100⌋) := by
  intro h
  have hp := h.2
  norm_num [calculate_rough_cost, recommended_rate_raw, actual_total, actual_direct,
    actual_indirect, actual_material, actual_labor, actual_equipment, material_cost,
    labor_cost, equipment_cost, estimated_direct_cost, direct_reduction_rate,
    resolveRatios, COST_RATIOS, List.lookup, pyInt, pyRound1, roundHalfEven] at hp

/-- C3 witness: claim3_amended applied at base_price 200, work 도로. -/
theorem claim3_witness :
    (0:ℤ) ≤ 200 ∧
    (calculate_rough_cost 200 "도로" 0 0 0).strategy.recommended_price =
      ⌊((200 : ℤ) : ℚ) * recommended_rate_raw 200 "도로" 0 0 0 / 100⌋ :=
  ⟨by norm_num, (claim3_amended 200 "도로" 0 0 0).2.2 (by norm_num)⟩


lemma actual_part_bounds {c : ℤ} {d : ℚ} (hc : 0 ≤ c) (hd0 : 0 ≤ d) (hd1 : d ≤ 100) :
    0 ≤ pyInt ((c : ℚ) * (1 - d / 100)) ∧ pyInt ((c : ℚ) * (1 - d / 100)) ≤ c := by
  have hcq : (0:ℚ) ≤ (c:ℚ) := by exact_mod_cast hc
  have hf0 : (0:ℚ) ≤ 1 - d / 100 := by linarith
  have hf1 : 1 - d / 100 ≤ 1 := by linarith
  have hv0 : (0:ℚ) ≤ (c:ℚ) * (1 - d / 100) := mul_nonneg hcq hf0
  have hv1 : (c:ℚ) * (1 - d / 100) ≤ (c:ℚ) := mul_le_of_le_one_right hcq hf1
  refine ⟨pyInt_nonneg hv0, ?_⟩
  have := (pyInt_le hv0).trans hv1
  exact_mod_cast this

/-- C10: for base_price > 0 and all three discounts in [0, 100], all
actual cost components are nonnegative, actual_total is at most
base_price, and the reported bubble rate lies in [0, 100]. -/
theorem claim10_actuals_bounded (base_price : ℤ) (work_type : String) (d1 d2 d3 : ℚ)
    (hbp : 0 < base_price)
    (h1a : 0 ≤ d1) (h1b : d1 ≤ 100) (h2a : 0 ≤ d2) (h2b : d2 ≤ 100)
    (h3a : 0 ≤ d3) (h3b : d3 ≤ 100) :
    0 ≤ (calculate_rough_cost base_price work_type d1 d2 d3).actual.material ∧
    0 ≤ (calculate_rough_cost base_price work_type d1 d2 d3).actual.labor ∧
    0 ≤ (calculate_rough_cost base_price work_type d1 d2 d3).actual.equipment ∧
    0 ≤ (calculate_rough_cost base_price work_type d1 d2 d3).actual.direct ∧
    0 ≤ (calculate_rough_cost base_price work_type d1 d2 d3).actual.indirect ∧
    (calculate_rough_cost base_price work_type d1 d2 d3).actual.total ≤ base_price ∧
    0 ≤ (calculate_rough_cost base_price work_type d1 d2 d3).bubble_rate ∧
    (calculate_rough_cost base_price work_type d1 d2 d3).bubble_rate ≤ 100 := by
  have hbpq : (0:ℚ) < (base_price : ℚ) := by exact_mod_cast hbp
  have h74 : (0:ℚ) ≤ (base_price : ℚ) * 0.74 := by nlinarith
  have h26 : (0:ℚ) ≤ (base_price : ℚ) * 0.26 := by nlinarith
  -- estimated direct cost
  have hedc0 : 0 ≤ estimated_direct_cost base_price := pyInt_nonneg h74
  have hedcq : (0:ℚ) ≤ (estimated_direct_cost base_price : ℚ) := by exact_mod_cast hedc0
  have hedc_le : (estimated_direct_cost base_price : ℚ) ≤ (base_price : ℚ) * 0.74 :=
    pyInt_le h74
  -- ratios
  obtain ⟨hm0, hl0, he0, hsum⟩ := resolveRatios_spec work_type
  have hmq : (0:ℚ) ≤ ((resolveRatios work_type).material : ℚ) := by exact_mod_cast hm0
  have hlq : (0:ℚ) ≤ ((resolveRatios work_type).labor : ℚ) := by exact_mod_cast hl0
  have heq : (0:ℚ) ≤ ((resolveRatios work_type).equipment : ℚ) := by exact_mod_cast he0
  have hsq : ((resolveRatios work_type).material : ℚ) +
      ((resolveRatios work_type).labor : ℚ) +
      ((resolveRatios work_type).equipment : ℚ) = 100 := by exact_mod_cast hsum
  -- standard parts
  have hmcv : (0:ℚ) ≤ (estimated_direct_cost base_price : ℚ) *
      ((resolveRatios work_type).material : ℚ) / 100 := by positivity
  have hlcv : (0:ℚ) ≤ (estimated_direct_cost base_price : ℚ) *
      ((resolveRatios work_type).labor : ℚ) / 100 := by positivity
  have hecv : (0:ℚ) ≤ (estimated_direct_cost base_price : ℚ) *
      ((resolveRatios work_type).equipment : ℚ) / 100 := by positivity
  have hmc0 : 0 ≤ material_cost base_price work_type := pyInt_nonneg hmcv
  have hlc0 : 0 ≤ labor_cost base_price work_type := pyInt_nonneg hlcv
  have hec0 : 0 ≤ equipment_cost base_price work_type := pyInt_nonneg hecv
  have hmc_le := pyInt_le hmcv
  have hlc_le := pyInt_le hlcv
  have hec_le := pyInt_le hecv
  -- sum of the three standard parts is at most estimated_direct_cost
  have hstd_sum : (material_cost base_price work_type : ℚ) +
      (labor_cost base_price work_type : ℚ) +
      (equipment_cost base_price work_type : ℚ) ≤
      (estimated_direct_cost base_price : ℚ) := by
    have htot : (estimated_direct_cost base_price : ℚ) *
          ((resolveRatios work_type).material : ℚ) / 100 +
        (estimated_direct_cost base_price : ℚ) *
          ((resolveRatios work_type).labor : ℚ) / 100 +
        (estimated_direct_cost base_price : ℚ) *
          ((resolveRatios work_type).equipment : ℚ) / 100 =
        (estimated_direct_cost base_price : ℚ) := by
      linear_combination (estimated_direct_cost base_price : ℚ) / 100 * hsq
    unfold material_cost labor_cost equipment_cost
    linarith
  -- actual parts
  obtain ⟨ham0, ham1⟩ := actual_part_bounds hmc0 h1a h1b
  obtain ⟨hal0, hal1⟩ := actual_part_bounds hlc0 h2a h2b
  obtain ⟨hae0, hae1⟩ := actual_part_bounds hec0 h3a h3b
  have hdir0 : 0 ≤ actual_direct base_price work_type d1 d2 d3 := by
    unfold actual_direct actual_material actual_labor actual_equipment
    omega
  have hdir_le : (actual_direct base_price work_type d1 d2 d3 : ℚ) ≤
      (estimated_direct_cost base_price : ℚ) := by
    have h1 : actual_material base_price work_type d1 ≤ material_cost base_price work_type := ham1
    have h2 : actual_labor base_price work_type d2 ≤ labor_cost base_price work_type := hal1
    have h3 : actual_equipment base_price work_type d3 ≤ equipment_cost base_price work_type := hae1
    have h1q : (actual_material base_price work_type d1 : ℚ) ≤
        (material_cost base_price work_type : ℚ) := by exact_mod_cast h1
    have h2q : (actual_labor base_price work_type d2 : ℚ) ≤
        (labor_cost base_price work_type : ℚ) := by exact_mod_cast h2
    have h3q : (actual_equipment base_price work_type d3 : ℚ) ≤
        (equipment_cost base_price work_type : ℚ) := by exact_mod_cast h3
    have : (actual_direct base_price work_type d1 d2 d3 : ℚ) =
        (actual_material base_price work_type d1 : ℚ) +
        (actual_labor base_price work_type d2 : ℚ) +
        (actual_equipment base_price work_type d3 : ℚ) := by
      unfold actual_direct; push_cast; ring
    linarith
  -- indirect bounds, by cases on the guard
  have hind : 0 ≤ actual_indirect base_price work_type d1 d2 d3 ∧
      (actual_indirect base_price work_type d1 d2 d3 : ℚ) ≤ (base_price : ℚ) * 0.26 := by
    unfold actual_indirect direct_reduction_rate
    by_cases hpos : 0 < estimated_direct_cost base_price
    · simp only [hpos, if_true]
      have hedcq' : (0:ℚ) < (estimated_direct_cost base_price : ℚ) := by exact_mod_cast hpos
      have hr0 : (0:ℚ) ≤ (actual_direct base_price work_type d1 d2 d3 : ℚ) /
          (estimated_direct_cost base_price : ℚ) := by
        apply div_nonneg _ (le_of_lt hedcq')
        exact_mod_cast hdir0
      have hr1 : (actual_direct base_price work_type d1 d2 d3 : ℚ) /
          (estimated_direct_cost base_price : ℚ) ≤ 1 :=
        (div_le_one hedcq').mpr hdir_le
      have hv0 : (0:ℚ) ≤ (base_price : ℚ) * 0.26 *
          ((actual_direct base_price work_type d1 d2 d3 : ℚ) /
            (estimated_direct_cost base_price : ℚ)) := mul_nonneg h26 hr0
      have hv1 : (base_price : ℚ) * 0.26 *
          ((actual_direct base_price work_type d1 d2 d3 : ℚ) /
            (estimated_direct_cost base_price : ℚ)) ≤ (base_price : ℚ) * 0.26 :=
        mul_le_of_le_one_right h26 hr1
      exact ⟨pyInt_nonneg hv0, (pyInt_le hv0).trans hv1⟩
    · simp only [hpos, if_false]
      rw [mul_one]
      exact ⟨pyInt_nonneg h26, pyInt_le h26⟩
  -- total
  have htot_le : actual_total base_price work_type d1 d2 d3 ≤ base_price := by
    have : (actual_total base_price work_type d1 d2 d3 : ℚ) ≤ (base_price : ℚ) := by
      have heq' : (actual_total base_price work_type d1 d2 d3 : ℚ) =
          (actual_direct base_price work_type d1 d2 d3 : ℚ) +
          (actual_indirect base_price work_type d1 d2 d3 : ℚ) := by
        unfold actual_total; push_cast; ring
      rw [heq']
      have h1 := hdir_le.trans hedc_le
      have h2 := hind.2
      linarith
    exact_mod_cast this
  have htot0 : 0 ≤ actual_total base_price work_type d1 d2 d3 := by
    unfold actual_total; omega
  -- bubble rate of the output
  have hraw0 : (0:ℚ) ≤ bubble_rate_raw base_price work_type d1 d2 d3 := by
    unfold bubble_rate_raw
    simp only [hbp, if_true]
    have htq : (actual_total base_price work_type d1 d2 d3 : ℚ) ≤ (base_price : ℚ) := by
      exact_mod_cast htot_le
    have : (0:ℚ) ≤ ((base_price : ℚ) - (actual_total base_price work_type d1 d2 d3 : ℚ)) /
        (base_price : ℚ) := div_nonneg (by linarith) (le_of_lt hbpq)
    linarith
  have hraw1 : bubble_rate_raw base_price work_type d1 d2 d3 ≤ 100 := by
    unfold bubble_rate_raw
    simp only [hbp, if_true]
    have ht0 : (0:ℚ) ≤ (actual_total base_price work_type d1 d2 d3 : ℚ) := by
      exact_mod_cast htot0
    have hdivle : ((base_price : ℚ) - (actual_total base_price work_type d1 d2 d3 : ℚ)) /
        (base_price : ℚ) ≤ 1 := by
      apply (div_le_one hbpq).mpr
      linarith
    linarith
  have hb0 : (0:ℚ) ≤ pyRound1 (bubble_rate_raw base_price work_type d1 d2 d3) := by
    have := le_pyRound1 (a := 0) (by exact_mod_cast hraw0)
    exact_mod_cast this
  have hb1 : pyRound1 (bubble_rate_raw base_price work_type d1 d2 d3) ≤ 100 := by
    have := pyRound1_le (b := 100) (by exact_mod_cast hraw1)
    exact_mod_cast this
  exact ⟨ham0, hal0, hae0, hdir0, hind.1, htot_le, hb0, hb1⟩

/-- C10 witness: claim10_actuals_bounded at base_price 1000, 건축,
discounts 10/20/30. -/
theorem claim10_witness :
    (0:ℤ) < 1000 ∧
    (calculate_rough_cost 1000 "건축" 10 20 30).actual.total ≤ 1000 ∧
    0 ≤ (calculate_rough_cost 1000 "건축" 10 20 30).bubble_rate :=
  ⟨by norm_num,
   (claim10_actuals_bounded 1000 "건축" 10 20 30 (by norm_num) (by norm_num) (by norm_num)
      (by norm_num) (by norm_num) (by norm_num) (by norm_num)).2.2.2.2.2.1,
   (claim10_actuals_bounded 1000 "건축" 10 20 30 (by norm_num) (by norm_num) (by norm_num)
      (by norm_num) (by norm_num) (by norm_num) (by norm_num)).2.2.2.2.2.2.1⟩


lemma mem_collectMatches {p : CompanyProfile} {bids : List Bid} {mb : MatchedBid}
    (h : mb ∈ collectMatches p bids) :
    mb.bid ∈ bids ∧ scoreBid p mb.bid = some (mb.match_score, mb.match_reasons) ∧
      25 ≤ mb.match_score := by
  unfold collectMatches at h
  rw [List.mem_filterMap] at h
  obtain ⟨a, ha, hfa⟩ := h
  cases hsc : scoreBid p a with
  | none => rw [hsc] at hfa; simp at hfa
  | some s =>
    rw [hsc] at hfa
    simp only [] at hfa
    by_cases h25 : 25 ≤ s.1
    · rw [if_pos h25] at hfa
      obtain rfl := Option.some.inj hfa
      exact ⟨ha, by rw [hsc], h25⟩
    · rw [if_neg h25] at hfa
      simp at hfa

lemma mem_collectQuick {p : CompanyProfile} {bids : List Bid} {mb : MatchedBid}
    (h : mb ∈ collectQuick p bids) :
    mb.bid ∈ bids ∧ quickScoreBid p mb.bid = some (mb.match_score, mb.match_reasons) ∧
      25 ≤ mb.match_score := by
  unfold collectQuick at h
  rw [List.mem_filterMap] at h
  obtain ⟨a, ha, hfa⟩ := h
  cases hsc : quickScoreBid p a with
  | none => rw [hsc] at hfa; simp at hfa
  | some s =>
    rw [hsc] at hfa
    simp only [] at hfa
    by_cases h25 : 25 ≤ s.1
    · rw [if_pos h25] at hfa
      obtain rfl := Option.some.inj hfa
      exact ⟨ha, by rw [hsc], h25⟩
    · rw [if_neg h25] at hfa
      simp at hfa

lemma scoreBid_price_filtered {p : CompanyProfile} {b : Bid}
    (hnz : effPrice b ≠ 0)
    (hout : effPrice b < p.min_price ∨ p.max_price < effPrice b) :
    scoreBid p b = none := by
  simp only [scoreBid]
  rw [if_pos hnz, if_neg (by omega)]

lemma quickScoreBid_price_filtered {p : CompanyProfile} {b : Bid}
    (hnz : effPrice b ≠ 0)
    (hout : effPrice b < p.min_price ∨ p.max_price < effPrice b) :
    quickScoreBid p b = none := by
  simp only [quickScoreBid]
  rw [if_pos hnz, if_neg (by omega)]

/-- C5: an announcement whose effective price (base_price if truthy,
else estimated_price) is nonzero and outside [min_price, max_price] is
excluded from the matched output of both match_bids and quick_match,
regardless of work-type or region match strength. -/
theorem claim5_price_exclusion (p : CompanyProfile) (bids : List Bid) (b : Bid)
    (hnz : effPrice b ≠ 0)
    (hout : effPrice b < p.min_price ∨ p.max_price < effPrice b) :
    (∀ mb ∈ matchBids p bids, mb.bid ≠ b) ∧
    (∀ mb ∈ quickMatchedTop p bids, mb.bid ≠ b) := by
  constructor
  · intro mb hmb hbid
    have hc : mb ∈ collectMatches p bids := List.mem_mergeSort.mp hmb
    have := (mem_collectMatches hc).2.1
    rw [hbid, scoreBid_price_filtered hnz hout] at this
    exact Option.noConfusion this
  · intro mb hmb hbid
    have hs : mb ∈ quickSorted p bids := List.mem_of_mem_take hmb
    have hc : mb ∈ collectQuick p bids := List.mem_mergeSort.mp hs
    have := (mem_collectQuick hc).2.1
    rw [hbid, quickScoreBid_price_filtered hnz hout] at this
    exact Option.noConfusion this


lemma scoreBid_falsy {p : CompanyProfile} {b : Bid} (hfalsy : effPrice b = 0) :
    scoreBid p b = some
      ((if (wtFound p b).isSome then 25 else 0) +
        (if (regionFound p b).isSome then 20 else 0),
       (match wtFound p b with
        | some work_type => ["공종 매칭: " ++ work_type]
        | none => []) ++
       (match regionFound p b with
        | some r => ["지역 매칭: " ++ r]
        | none => [])) := by
  simp only [scoreBid]
  rw [if_neg (by simp [hfalsy])]
  cases hw : wtFound p b <;> cases hr : regionFound p b <;> simp

/-- C6: an announcement whose base_price and estimated_price are both
falsy skips the price filter (scoreBid returns some, with no +30 price
bonus: the score is exactly the work-type part plus the region part),
and it is kept in the matched output exactly when that score is at
least 25. -/
theorem claim6_falsy_price_kept_iff (p : CompanyProfile) (bids : List Bid) (b : Bid)
    (hin : b ∈ bids) (hfalsy : effPrice b = 0) :
    ∃ s rs, scoreBid p b = some (s, rs) ∧
      s = (if (wtFound p b).isSome then 25 else 0) +
          (if (regionFound p b).isSome then 20 else 0) ∧
      (MatchedBid.mk b s rs ∈ matchBids p bids ↔ 25 ≤ s) := by
  refine ⟨_, _, scoreBid_falsy hfalsy, rfl, ?_⟩
  constructor
  · intro hmem
    exact (mem_collectMatches (List.mem_mergeSort.mp hmem)).2.2
  · intro h25
    apply List.mem_mergeSort.mpr
    unfold collectMatches
    apply List.mem_filterMap.mpr
    refine ⟨b, hin, ?_⟩
    rw [scoreBid_falsy hfalsy]
    simp only []
    rw [if_pos h25]

/-- C7: the descending sort of the matchers is stable - two kept
announcements with equal match scores that appear in fetch order in the
pre-sort matched list appear in the same relative order in the sorted
output, for both match_bids and quick_match. -/
theorem claim7_sort_stable (p : CompanyProfile) (bids : List Bid) (a b : MatchedBid)
    (hscore : a.match_score = b.match_score) :
    ([a, b].Sublist (collectMatches p bids) → [a, b].Sublist (matchBids p bids)) ∧
    ([a, b].Sublist (collectQuick p bids) → [a, b].Sublist (quickSorted p bids)) := by
  have htrans : ∀ x y z : MatchedBid,
      decide (y.match_score ≤ x.match_score) = true →
      decide (z.match_score ≤ y.match_score) = true →
      decide (z.match_score ≤ x.match_score) = true := by
    intro x y z hxy hyz
    simp only [decide_eq_true_eq] at *
    omega
  have htotal : ∀ x y : MatchedBid,
      (decide (y.match_score ≤ x.match_score) ||
        decide (x.match_score ≤ y.match_score)) = true := by
    intro x y
    simp only [Bool.or_eq_true, decide_eq_true_eq]
    omega
  have hpair : [a, b].Pairwise
      (fun x y => decide (y.match_score ≤ x.match_score) = true) := by
    simp [List.pairwise_cons, hscore]
  exact ⟨fun h => List.sublist_mergeSort htrans htotal hpair h,
         fun h => List.sublist_mergeSort htrans htotal hpair h⟩

/-- C8 counterexample: looking up the unknown profile name 테스트
raises 404, but the error detail does not mention any of the valid
sample-profile names, refuting that the response names the valid
alternatives. -/
theorem claim8_cx :
    (∃ e : HTTPError, get_sample_profile "테스트" = Except.error e ∧
      e.status_code = 404 ∧
      ∀ k ∈ SAMPLE_PROFILES.map Prod.fst, strIn k e.detail = false) ∧
    (∃ e : HTTPError, quick_match_profile "테스트" = Except.error e ∧
      e.status_code = 404 ∧
      ∀ k ∈ SAMPLE_PROFILES.map Prod.fst, strIn k e.detail = false) := by
  refine ⟨⟨⟨404, "프로필 \u0027테스트\u0027 없음"⟩, rfl, rfl, by decide⟩,
          ⟨⟨404, "프로필 \u0027테스트\u0027 없음"⟩, rfl, rfl, by decide⟩⟩

/-- C8 (amended): for every profile name not in SAMPLE_PROFILES, both
lookup-by-name operations fail with a distinct 404 not-found condition
whose message names the requested profile - but not the valid
alternatives. -/
theorem claim8_amended (profile_name : String)
    (h : SAMPLE_PROFILES.lookup profile_name = none) :
    get_sample_profile profile_name =
      Except.error ⟨404, "프로필 '" ++ profile_name ++ "' 없음"⟩ ∧
    quick_match_profile profile_name =
      Except.error ⟨404, "프로필 '" ++ profile_name ++ "' 없음"⟩ := by
  unfold get_sample_profile quick_match_profile
  rw [h]
  exact ⟨rfl, rfl⟩

/-- C8 witness: claim8_amended applied at the unknown name 공고. -/
theorem claim8_witness :
    get_sample_profile "공고" =
      Except.error ⟨404, "프로필 '" ++ "공고" ++ "' 없음"⟩ :=
  (claim8_amended "공고" (by decide)).1



/-- C9: check_rate_limit raises the 429 quota error exactly when the
stored counter for (today, ip, app_type) has reached the applicable
limit; on raise that counter is unchanged, otherwise it is incremented
by exactly one and the returned record satisfies used + remaining =
limit and used <= limit. -/
theorem claim9_rate_limit (today ip app_type : String) (is_premium : Bool)
    (du : DailyUsage) :
    (isErr (check_rate_limit today ip app_type is_premium du).1 = true ↔
      limitFor app_type is_premium ≤ counterOf du today ip app_type) ∧
    (isErr (check_rate_limit today ip app_type is_premium du).1 = true →
      counterOf (check_rate_limit today ip app_type is_premium du).2 today ip app_type =
        counterOf du today ip app_type) ∧
    (∀ r, (check_rate_limit today ip app_type is_premium du).1 = Except.ok r →
      counterOf (check_rate_limit today ip app_type is_premium du).2 today ip app_type =
        counterOf du today ip app_type + 1 ∧
      r.used + r.remaining = limitFor app_type is_premium ∧
      r.used ≤ limitFor app_type is_premium) := by
  cases hdu : du today with
  | none =>
    simp only [check_rate_limit, counterOf, hdu, Option.isSome_none, Bool.false_eq_true,
      if_false, ite_true, ite_false, eq_self_iff_true, Option.getD_some, Option.isSome_some]
    split_ifs with hlim
    · refine ⟨⟨fun _ => by omega, fun _ => rfl⟩, fun _ => by simp, fun r hr => ?_⟩
      simp [isErr] at hr
    · refine ⟨⟨fun h => by simp [isErr] at h, fun h => by omega⟩,
        fun h => by simp [isErr] at h, fun r hr => ?_⟩
      simp only [] at hr
      obtain rfl := (Except.ok.inj hr)
      refine ⟨by simp, by simp only []; omega, by simp only []; omega⟩
  | some t =>
    cases hip : t ip with
    | none =>
      simp only [check_rate_limit, counterOf, hdu, hip, Option.isSome_none, Bool.false_eq_true,
        if_false, ite_true, ite_false, eq_self_iff_true, Option.getD_some, Option.isSome_some]
      split_ifs with hlim
      · refine ⟨⟨fun _ => by omega, fun _ => rfl⟩, fun _ => by simp [hdu, hip], fun r hr => ?_⟩
        simp [isErr] at hr
      · refine ⟨⟨fun h => by simp [isErr] at h, fun h => by omega⟩,
          fun h => by simp [isErr] at h, fun r hr => ?_⟩
        simp only [] at hr
        obtain rfl := (Except.ok.inj hr)
        refine ⟨by simp [hdu, hip], by simp only []; omega, by simp only []; omega⟩
    | some u =>
      simp only [check_rate_limit, counterOf, hdu, hip, Option.isSome_none, Bool.false_eq_true,
        if_false, ite_true, ite_false, eq_self_iff_true, Option.getD_some, Option.isSome_some]
      split_ifs with hlim
      · refine ⟨⟨fun _ => by omega, fun _ => rfl⟩, fun _ => by simp [hdu, hip], fun r hr => ?_⟩
        simp [isErr] at hr
      · refine ⟨⟨fun h => by simp [isErr] at h, fun h => by omega⟩,
          fun h => by simp [isErr] at h, fun r hr => ?_⟩
        simp only [] at hr
        obtain rfl := (Except.ok.inj hr)
        refine ⟨by simp [hdu, hip], by simp only []; omega, by simp only []; omega⟩

/-- C5 witness: claim5_price_exclusion on the overpriced fixture. -/
theorem claim5_witness :
    (∀ mb ∈ matchBids wProfile [wBidHi], mb.bid ≠ wBidHi) ∧
    (∀ mb ∈ quickMatchedTop wProfile [wBidHi], mb.bid ≠ wBidHi) :=
  claim5_price_exclusion wProfile [wBidHi] wBidHi (by decide) (Or.inr (by decide))

/-- C6 witness: claim6_falsy_price_kept_iff on the unpriced fixture. -/
theorem claim6_witness :
    ∃ s rs, scoreBid wProfile wBidFree = some (s, rs) ∧
      s = (if (wtFound wProfile wBidFree).isSome then 25 else 0) +
          (if (regionFound wProfile wBidFree).isSome then 20 else 0) ∧
      (MatchedBid.mk wBidFree s rs ∈ matchBids wProfile [wBidFree] ↔ 25 ≤ s) :=
  claim6_falsy_price_kept_iff wProfile [wBidFree] wBidFree (by decide) (by decide)

/-- C7 witness: claim7_sort_stable on two equal-score fixtures. -/
theorem claim7_witness :
    [MatchedBid.mk wBidA 25 ["공종 매칭: 도로"],
     MatchedBid.mk wBidB 25 ["공종 매칭: 도로"]].Sublist
      (matchBids wProfile [wBidA, wBidB]) :=
  (claim7_sort_stable wProfile [wBidA, wBidB]
      (MatchedBid.mk wBidA 25 ["공종 매칭: 도로"])
      (MatchedBid.mk wBidB 25 ["공종 매칭: 도로"]) rfl).1 (by decide)

/-- C9 witness: claim9_rate_limit on an empty usage dictionary. -/
theorem claim9_witness :
    counterOf (check_rate_limit "2025-01-01" "1.2.3.4" "cost" false (fun _ => none)).2
        "2025-01-01" "1.2.3.4" "cost" =
      counterOf (fun _ => none : DailyUsage) "2025-01-01" "1.2.3.4" "cost" + 1 ∧
    ({ used := 1, limit := 20, remaining := 19 } : RateInfo).used +
        ({ used := 1, limit := 20, remaining := 19 } : RateInfo).remaining =
      limitFor "cost" false :=
  ⟨((claim9_rate_limit "2025-01-01" "1.2.3.4" "cost" false (fun _ => none)).2.2
      ⟨1, 20, 19⟩ rfl).1,
   ((claim9_rate_limit "2025-01-01" "1.2.3.4" "cost" false (fun _ => none)).2.2
      ⟨1, 20, 19⟩ rfl).2.1⟩

end WiseBid
